import Mathlib

/-!
# Verification of the Go runtime-metrics collector (`main.go`)

A shallow embedding of the runtime-statistics sampling and
metric-registration layer of the repository: the `MetricsCollector`
struct, the constructor `newMetricsCollector`, the observable-gauge
callback it registers, and the demo route handlers in `main` that
mutate the application-driven counters.

Machine integers are modelled as `Nat` with explicit reduction modulo
`2 ^ 64` (resp. `2 ^ 32`) exactly where the Go code converts or may
overflow; Go's `float64` values that only ever hold exact ratios of
integers are modelled as `ℚ`.
-/

/-- Go's conversion `int64(x)` applied to a `uint64` value `x`:
two's-complement reinterpretation of the low 64 bits. -/
def int64OfUInt64 (n : Nat) : Int :=
  if n % 2 ^ 64 < 2 ^ 63 then ((n % 2 ^ 64 : Nat) : Int)
  else ((n % 2 ^ 64 : Nat) : Int) - 2 ^ 64

/-- The fields of `runtime.MemStats` read by the callback
(`runtime.ReadMemStats(&stats)`, main.go lines 200-226).
`HeapAlloc` … `StackSys` are `uint64`; `NumGC` is `uint32`;
`LastGC` is a `uint64` nanosecond timestamp; `GCCPUFraction` is a
`float64`, modelled as `ℚ`. -/
structure MemStats where
  HeapAlloc : Nat
  HeapIdle : Nat
  HeapInuse : Nat
  HeapObjects : Nat
  HeapReleased : Nat
  HeapSys : Nat
  GCSys : Nat
  StackInuse : Nat
  StackSys : Nat
  NumGC : Nat
  LastGC : Nat
  GCCPUFraction : ℚ
  deriving Repr, DecidableEq

/-- One sampling pass's view of the runtime: the `MemStats` read plus
the other runtime reads made in the same callback invocation
(`runtime.NumGoroutine()`, `runtime.NumCPU()`).  `osThreadCount` is
the actual OS-level worker thread count at that instant; the code
never reads it (it reads `runtime.NumCPU()` instead), but the spec
refers to it, so it is carried as part of the snapshot for
comparison. -/
structure Snapshot where
  stats : MemStats
  numGoroutine : Nat
  numCPU : Nat
  osThreadCount : Nat
  deriving Repr, DecidableEq

/-- The cumulative state kept across sampling passes: the fields
`lastGC` (`uint32`, last observed `NumGC`) and `lastPause` (`uint64`,
last observed `LastGC` timestamp) of `MetricsCollector`
(main.go lines 55-58). -/
structure CumulativeState where
  lastGC : Nat
  lastPause : Nat
  deriving Repr, DecidableEq

/-- The gauge values observed during one callback invocation
(main.go lines 203-214), in the `int64` (resp. `float64`) form the
code passes to `o.ObserveInt64` / `o.ObserveFloat64`. -/
structure GaugeObservations where
  heapAlloc : Int
  heapIdle : Int
  heapInUse : Int
  heapObjects : Int
  heapReleased : Int
  heapSys : Int
  activeGoroutines : Int
  gcCPUFraction : ℚ
  gcSys : Int
  osThreads : Int
  stackInUse : Int
  stackSys : Int
  deriving Repr, DecidableEq

/-- The outcome of one invocation of the registered callback:
the gauge observations, the amount added to the `go_gc_cycles_total`
counter (0 when no `Add` call happens), the value recorded into the
`go_gc_duration_seconds` histogram (if any), and the updated
cumulative state. -/
structure PassResult where
  obs : GaugeObservations
  gcAdded : Nat
  pauseRecorded : Option ℚ
  state : CumulativeState
  deriving Repr, DecidableEq

/-- The gauge-observation block of the callback registered by
`newMetricsCollector` (main.go lines 203-214): every gauge is written
directly from the pass's snapshot, `go_goroutines` from
`runtime.NumGoroutine()` and `go_threads` from `runtime.NumCPU()`. -/
def observeGauges (s : Snapshot) : GaugeObservations :=
  { heapAlloc := int64OfUInt64 s.stats.HeapAlloc
    heapIdle := int64OfUInt64 s.stats.HeapIdle
    heapInUse := int64OfUInt64 s.stats.HeapInuse
    heapObjects := int64OfUInt64 s.stats.HeapObjects
    heapReleased := int64OfUInt64 s.stats.HeapReleased
    heapSys := int64OfUInt64 s.stats.HeapSys
    activeGoroutines := (s.numGoroutine : Int)
    gcCPUFraction := s.stats.GCCPUFraction
    gcSys := int64OfUInt64 s.stats.GCSys
    osThreads := (s.numCPU : Int)
    stackInUse := int64OfUInt64 s.stats.StackInuse
    stackSys := int64OfUInt64 s.stats.StackSys }

/-- The callback registered by `newMetricsCollector`
(main.go lines 198-229), as a function of the cumulative state it
reads and the snapshot taken during the pass.  The GC-delta block
mirrors lines 217-226:

```go
if stats.NumGC > mc.lastGC {
    delta := stats.NumGC - mc.lastGC
    mc.gcCount.Add(context.Background(), int64(delta))
    if stats.LastGC > mc.lastPause {
        pauseNs := stats.LastGC - mc.lastPause
        mc.gcPauseDuration.Record(context.Background(), float64(pauseNs)/1e9)
    }
    mc.lastGC = stats.NumGC
    mc.lastPause = stats.LastGC
}
```
-/
def metricsCallback (mc : CumulativeState) (s : Snapshot) : PassResult :=
  let obs : GaugeObservations := observeGauges s
  if s.stats.NumGC > mc.lastGC then
    let delta := s.stats.NumGC - mc.lastGC
    let pause : Option ℚ :=
      if s.stats.LastGC > mc.lastPause then
        some (((s.stats.LastGC - mc.lastPause : Nat) : ℚ) / 1000000000)
      else none
    { obs := obs
      gcAdded := delta
      pauseRecorded := pause
      state := { lastGC := s.stats.NumGC, lastPause := s.stats.LastGC } }
  else
    { obs := obs, gcAdded := 0, pauseRecorded := none, state := mc }

/-- The zero-initialised cumulative state of a freshly constructed
`MetricsCollector` (Go zero values of `lastGC` and `lastPause`). -/
def initialCumulativeState : CumulativeState :=
  { lastGC := 0, lastPause := 0 }

/-- Running a sequence of sampling passes from a given cumulative
state and a given running total of the `go_gc_cycles_total` counter;
returns the final state and final counter total. -/
def runScrapes (mc : CumulativeState) (total : Nat) :
    List Snapshot → CumulativeState × Nat
  | [] => (mc, total)
  | s :: rest =>
      let r := metricsCallback mc s
      runScrapes r.state (total + r.gcAdded) rest

/-- The kind of an instrument, as created through the OpenTelemetry
meter: `Int64ObservableGauge` / `Float64ObservableGauge` are gauges,
`Int64Counter` is a counter, `Float64Histogram` is a histogram. -/
inductive Kind
  | gauge
  | counter
  | histogram
  deriving Repr, DecidableEq

/-- The instruments created by `newMetricsCollector`
(main.go lines 65-195), in program order, each with its name and
kind exactly as passed to the meter. -/
def registeredInstruments : List (String × Kind) :=
  [ ("go_memstats_heap_alloc_bytes", Kind.gauge),
    ("go_memstats_heap_idle_bytes", Kind.gauge),
    ("go_memstats_heap_inuse_bytes", Kind.gauge),
    ("go_memstats_heap_objects", Kind.gauge),
    ("go_memstats_heap_released_bytes", Kind.gauge),
    ("go_memstats_heap_sys_bytes", Kind.gauge),
    ("go_gc_duration_seconds", Kind.histogram),
    ("go_gc_cycles_total", Kind.counter),
    ("go_gc_forced_total", Kind.counter),
    ("go_goroutines", Kind.gauge),
    ("go_goroutines_created_total", Kind.counter),
    ("go_gc_cpu_fraction", Kind.gauge),
    ("go_memstats_gc_sys_bytes", Kind.gauge),
    ("go_runtime_cpu_goroutine_seconds_total", Kind.counter),
    ("go_gc_cpu_seconds_total", Kind.counter),
    ("go_runtime_sys_seconds_total", Kind.counter),
    ("go_threads", Kind.gauge),
    ("go_memstats_stack_inuse_bytes", Kind.gauge),
    ("go_memstats_stack_sys_bytes", Kind.gauge),
    ("go_mutex_wait_seconds_total", Kind.counter),
    ("go_mutex_lock_total", Kind.counter) ]

/-- Modelled from the spec: the rows of Table 4.1 of the design
document (abstract instrument name and kind), in table order, written
down to be compared with `registeredInstruments`, which comes from
the source. -/
def specTable41 : List (String × Kind) :=
  [ ("heap_alloc_bytes", Kind.gauge),
    ("heap_idle_bytes", Kind.gauge),
    ("heap_inuse_bytes", Kind.gauge),
    ("heap_objects", Kind.gauge),
    ("heap_released_bytes", Kind.gauge),
    ("heap_sys_bytes", Kind.gauge),
    ("gc_duration_seconds", Kind.histogram),
    ("gc_cycles_total", Kind.counter),
    ("gc_forced_total", Kind.counter),
    ("goroutines", Kind.gauge),
    ("goroutines_created_total", Kind.counter),
    ("gc_cpu_fraction", Kind.gauge),
    ("gc_sys_bytes", Kind.gauge),
    ("cpu_goroutine_seconds_total", Kind.counter),
    ("gc_cpu_seconds_total", Kind.counter),
    ("sys_seconds_total", Kind.counter),
    ("os_threads", Kind.gauge),
    ("stack_inuse_bytes", Kind.gauge),
    ("stack_sys_bytes", Kind.gauge),
    ("mutex_wait_seconds_total", Kind.counter),
    ("mutex_lock_total", Kind.counter) ]

/-- The cumulative values of the eight `Int64Counter` instruments of
`MetricsCollector`.  Every `Add` call in the program adds a
non-negative `int64` (a `uint32` delta, elapsed nanoseconds, or the
literal 1), so the totals are modelled as `Nat`. -/
structure CounterState where
  gcCount : Nat
  gcForced : Nat
  totalGoroutines : Nat
  goroutineExecTime : Nat
  gcTime : Nat
  systemTime : Nat
  mutexWaitTime : Nat
  mutexLockCount : Nat
  deriving Repr, DecidableEq

/-- Counter totals of a freshly started process: no `Add` has
happened yet, so every counter totals 0. -/
def initialCounters : CounterState :=
  { gcCount := 0, gcForced := 0, totalGoroutines := 0,
    goroutineExecTime := 0, gcTime := 0, systemTime := 0,
    mutexWaitTime := 0, mutexLockCount := 0 }

/-- The `/allocate-memory` handler (main.go lines 274-278): allocates
and discards a transient buffer; touches no counter. -/
def allocateMemoryHandler (c : CounterState) : CounterState := c

/-- The `/spawn-goroutines` handler (main.go lines 280-289) after all
ten spawned goroutines have completed: each performs
`collector.totalGoroutines.Add(ctx, 1)`, so the completed effect on
the counter state is adding 10. -/
def spawnGoroutinesHandler (c : CounterState) : CounterState :=
  { c with totalGoroutines := c.totalGoroutines + 10 }

/-- The `/simulate-mutex` handler (main.go lines 291-297):

```go
start := time.Now()
time.Sleep(time.Millisecond * 100)
collector.mutexWaitTime.Add(c.Request.Context(), time.Since(start).Nanoseconds())
collector.mutexLockCount.Add(c.Request.Context(), 1)
```

`elapsedNs` is the measured `time.Since(start).Nanoseconds()`; note
the code adds NANOSECONDS to the counter named
`go_mutex_wait_seconds_total`. -/
def simulateMutexHandler (elapsedNs : Nat) (c : CounterState) : CounterState :=
  { c with mutexWaitTime := c.mutexWaitTime + elapsedNs,
           mutexLockCount := c.mutexLockCount + 1 }

/-- Whole-process mutable state: the counter totals and the sampling
callback's cumulative GC state. -/
structure SystemState where
  counters : CounterState
  cum : CumulativeState
  deriving Repr, DecidableEq

/-- State of the process right after a successful startup. -/
def initialSystemState : SystemState :=
  { counters := initialCounters, cum := initialCumulativeState }

/-- The operations the running process can perform, each driven by
one HTTP request: a `/metrics` scrape (which runs the registered
callback on the snapshot taken during that pass) or one of the three
demo routes. -/
inductive Op
  | scrape (s : Snapshot)
  | allocateMemory
  | spawnGoroutines
  | simulateMutex (elapsedNs : Nat)
  deriving Repr, DecidableEq

/-- Effect of one operation on the process state. -/
def step (st : SystemState) : Op → SystemState
  | Op.scrape s =>
      let r := metricsCallback st.cum s
      { counters := { st.counters with gcCount := st.counters.gcCount + r.gcAdded },
        cum := r.state }
  | Op.allocateMemory => { st with counters := allocateMemoryHandler st.counters }
  | Op.spawnGoroutines => { st with counters := spawnGoroutinesHandler st.counters }
  | Op.simulateMutex e => { st with counters := simulateMutexHandler e st.counters }

/-- Running a sequence of operations from a state. -/
def runOps (st : SystemState) (ops : List Op) : SystemState :=
  ops.foldl step st

/-- The instrumentation backend as seen by `newMetricsCollector`:
whether the meter accepts the creation of each named instrument, and
whether `RegisterCallback` succeeds. -/
structure Meter where
  createOk : String → Bool
  registerCallbackOk : Bool

/-- The creation order of instruments in `newMetricsCollector`. -/
def instrumentOrder : List String :=
  registeredInstruments.map Prod.fst

/-- The straight-line create/check sequence of `newMetricsCollector`
(main.go lines 65-195): create each instrument in order; on the first
rejection return immediately (`if err != nil { return nil, err }`),
so the created instruments are exactly those before the failure.
Returns the list of instruments actually created and the name of the
failing instrument, if any. -/
def createInstruments (m : Meter) : List String → List String × Option String
  | [] => ([], none)
  | n :: rest =>
      if m.createOk n then
        let r := createInstruments m rest
        (n :: r.1, r.2)
      else ([], some n)

/-- `newMetricsCollector` (main.go lines 60-245): creates all 21
instruments in order, returning the first creation error unchanged;
then registers the gauge callback and returns its error, if any.
On success the result carries the full instrument list. -/
def newMetricsCollector (m : Meter) : Except String (List String) :=
  let r := createInstruments m instrumentOrder
  match r.2 with
  | some e => Except.error e
  | none =>
      if m.registerCallbackOk then Except.ok r.1
      else Except.error "RegisterCallback"

/-- What the process does after `newMetricsCollector` returns, per
`main` (main.go lines 265-268): `log.Fatal(err)` terminates the
process before any route is set up; otherwise the server starts
serving with the full instrument list. -/
inductive ProcessOutcome
  | terminated (diag : String)
  | serving (instruments : List String)
  deriving Repr, DecidableEq

/-- The startup path of `main` (main.go lines 247-305) as a function
of the backend: either termination before serving, or serving with
every registered instrument. -/
def mainOutcome (m : Meter) : ProcessOutcome :=
  match newMetricsCollector m with
  | Except.error e => ProcessOutcome.terminated e
  | Except.ok l => ProcessOutcome.serving l

/-- A concrete `MemStats` value with the given GC cycle count and
last-GC timestamp and all other fields zero, used for concrete
evaluations. -/
def sampleStats (numGC lastGCts : Nat) : MemStats :=
  { HeapAlloc := 0, HeapIdle := 0, HeapInuse := 0, HeapObjects := 0,
    HeapReleased := 0, HeapSys := 0, GCSys := 0, StackInuse := 0,
    StackSys := 0, NumGC := numGC, LastGC := lastGCts, GCCPUFraction := 0 }

/-- A concrete snapshot built from `sampleStats`. -/
def sampleSnapshot (numGC lastGCts : Nat) : Snapshot :=
  { stats := sampleStats numGC lastGCts, numGoroutine := 0, numCPU := 0,
    osThreadCount := 0 }

/-- A concrete snapshot taken on a machine with 8 logical CPUs while
the Go runtime has 12 OS worker threads. -/
def snapshotEightCPUs : Snapshot :=
  { stats := sampleStats 0 0, numGoroutine := 5, numCPU := 8,
    osThreadCount := 12 }

/-- A concrete snapshot whose `HeapAlloc` field has its top bit set
(`2 ^ 63`, a legal `uint64` value). -/
def snapshotHugeHeap : Snapshot :=
  { stats := { sampleStats 0 0 with HeapAlloc := 2 ^ 63 },
    numGoroutine := 0, numCPU := 0, osThreadCount := 0 }

/-- A concrete backend that rejects the creation of
`go_gc_cycles_total` and accepts everything else. -/
def meterRejectingGcCycles : Meter :=
  { createOk := fun s => ! (s == "go_gc_cycles_total"),
    registerCallbackOk := true }

/-- The result of one `createInstruments` run is the longest prefix
of accepted creations together with the first rejected name, if
any. -/
theorem createInstruments_eq (m : Meter) (l : List String) :
    createInstruments m l =
      (l.takeWhile m.createOk, l.find? (fun s => ! m.createOk s)) := by
  induction l with
  | nil => rfl
  | cons n rest ih =>
      by_cases h : m.createOk n
      · simp [createInstruments, h, List.takeWhile_cons, List.find?_cons, ih]
      · simp [createInstruments, h, List.takeWhile_cons, List.find?_cons]

/-- The gauge observations of a pass do not depend on the GC-delta
branch taken. -/
theorem metricsCallback_obs (mc : CumulativeState) (s : Snapshot) :
    (metricsCallback mc s).obs = observeGauges s := by
  by_cases h : s.stats.NumGC > mc.lastGC <;> simp [metricsCallback, h]

/-- A `uint64` value below `2 ^ 63` converts to a non-negative
`int64`. -/
theorem int64OfUInt64_nonneg (n : Nat) (h : n < 2 ^ 63) :
    0 ≤ int64OfUInt64 n := by
  have h64 : n % 2 ^ 64 = n := Nat.mod_eq_of_lt (lt_trans h (by norm_num))
  unfold int64OfUInt64
  rw [h64, if_pos h]
  exact Int.natCast_nonneg n

/-- C1: over every sequence of sampling passes the cumulative
`go_gc_cycles_total` value is non-decreasing, and the amount a single
pass adds equals the snapshot's GC cycle count minus the stored
`lastGC` when that difference is strictly positive, and zero
otherwise. -/
theorem spec_C1_gc_cycles_monotone :
    (∀ (mc : CumulativeState) (s : Snapshot),
      (metricsCallback mc s).gcAdded =
        if mc.lastGC < s.stats.NumGC then s.stats.NumGC - mc.lastGC else 0) ∧
    (∀ (mc : CumulativeState) (total : Nat) (l : List Snapshot),
      total ≤ (runScrapes mc total l).2) := by
  constructor
  · intro mc s
    by_cases h : mc.lastGC < s.stats.NumGC <;> simp [metricsCallback, h]
  · intro mc total l
    induction l generalizing mc total with
    | nil => exact le_refl total
    | cons s rest ih =>
        exact le_trans (Nat.le_add_right total (metricsCallback mc s).gcAdded)
          (ih (metricsCallback mc s).state (total + (metricsCallback mc s).gcAdded))

/-- C2: a pass records into `go_gc_duration_seconds` exactly when the
snapshot's cycle count strictly exceeds the stored one AND the
snapshot's last-GC timestamp strictly exceeds the stored one; the
recorded value is (new timestamp − stored timestamp) / 1e9 and is
never negative. -/
theorem spec_C2_gc_duration_nonneg (mc : CumulativeState) (s : Snapshot) :
    ((metricsCallback mc s).pauseRecorded.isSome ↔
      (mc.lastGC < s.stats.NumGC ∧ mc.lastPause < s.stats.LastGC)) ∧
    (∀ q : ℚ, (metricsCallback mc s).pauseRecorded = some q →
      q = ((s.stats.LastGC - mc.lastPause : Nat) : ℚ) / 1000000000 ∧ 0 ≤ q) := by
  constructor
  · by_cases h1 : mc.lastGC < s.stats.NumGC <;>
      by_cases h2 : mc.lastPause < s.stats.LastGC <;>
      simp [metricsCallback, h1, h2]
  · intro q hq
    by_cases h1 : mc.lastGC < s.stats.NumGC <;>
      by_cases h2 : mc.lastPause < s.stats.LastGC <;>
      simp [metricsCallback, h1, h2] at hq
    subst hq
    refine ⟨rfl, ?_⟩
    positivity

/-- Witness for C2 at a concrete pass: initial state, snapshot with
one completed cycle and last-GC timestamp 2e9 ns; the recorded value
is (2e9 − 0) / 1e9 = 2 ≥ 0. -/
theorem spec_C2_gc_duration_nonneg_witness :
    ((2 : ℚ) = ((2000000000 - 0 : Nat) : ℚ) / 1000000000 ∧ 0 ≤ (2 : ℚ)) :=
  (spec_C2_gc_duration_nonneg initialCumulativeState
      (sampleSnapshot 1 2000000000)).2 2 (by
    simp [metricsCallback, initialCumulativeState, sampleSnapshot, sampleStats]
    norm_num)

/-- C4: a pass mutates the cumulative state exactly when the
snapshot's cycle count strictly exceeds the stored one, setting both
fields from the snapshot; otherwise the state is returned
unchanged. -/
theorem spec_C4_state_frame (mc : CumulativeState) (s : Snapshot) :
    (metricsCallback mc s).state =
      if mc.lastGC < s.stats.NumGC
      then { lastGC := s.stats.NumGC, lastPause := s.stats.LastGC }
      else mc := by
  by_cases h : mc.lastGC < s.stats.NumGC <;> simp [metricsCallback, h]

/-- C3, failing input: on a pass over a snapshot taken with 8 logical
CPUs and 12 OS worker threads, the `go_threads` gauge publishes 8
(the `runtime.NumCPU()` value), not the OS-level worker thread count
12. -/
theorem spec_C3_os_threads_failing :
    (metricsCallback initialCumulativeState snapshotEightCPUs).obs.osThreads = 8 ∧
    snapshotEightCPUs.osThreadCount = 12 ∧
    (metricsCallback initialCumulativeState snapshotEightCPUs).obs.osThreads ≠
      (snapshotEightCPUs.osThreadCount : Int) := by
  refine ⟨?_, rfl, ?_⟩ <;>
    simp [metricsCallback, observeGauges, snapshotEightCPUs, sampleStats,
      initialCumulativeState]

/-- C5, counterexample to the claim as stated: Table 4.1 enumerates
21 instruments, not 20, and the source registers 21. -/
theorem spec_C5_counterexample :
    specTable41.length = 21 ∧ registeredInstruments.length = 21 ∧
    specTable41.length ≠ 20 := by
  refine ⟨rfl, rfl, ?_⟩
  decide

/-- C5 amended: immediately after startup the registry holds all 21
instruments of Table 4.1 with kinds matching that table row by row,
and every one of the eight counters reads 0. -/
theorem spec_C5_startup_scrape :
    registeredInstruments.length = 21 ∧
    registeredInstruments.map Prod.snd = specTable41.map Prod.snd ∧
    initialSystemState.counters = initialCounters ∧
    initialCounters.gcCount = 0 ∧ initialCounters.gcForced = 0 ∧
    initialCounters.totalGoroutines = 0 ∧
    initialCounters.goroutineExecTime = 0 ∧
    initialCounters.gcTime = 0 ∧ initialCounters.systemTime = 0 ∧
    initialCounters.mutexWaitTime = 0 ∧
    initialCounters.mutexLockCount = 0 := by
  refine ⟨rfl, ?_, rfl, rfl, rfl, rfl, rfl, rfl, rfl, rfl, rfl⟩
  decide

/-- C6: if the backend rejects some instrument creation, the
constructor returns that first error, only the instruments before the
failure were created, and the process terminates before serving. -/
theorem spec_C6_fatal_startup (m : Meter) (n : String)
    (h : instrumentOrder.find? (fun s => ! m.createOk s) = some n) :
    newMetricsCollector m = Except.error n ∧
    (createInstruments m instrumentOrder).1 =
      instrumentOrder.takeWhile m.createOk ∧
    mainOutcome m = ProcessOutcome.terminated n := by
  have hc := createInstruments_eq m instrumentOrder
  refine ⟨?_, by rw [hc], ?_⟩
  · unfold newMetricsCollector
    rw [hc, h]
  · unfold mainOutcome newMetricsCollector
    rw [hc, h]

/-- Witness for C6: a backend rejecting exactly `go_gc_cycles_total`
makes the constructor fail with that name and the process terminate
before serving. -/
theorem spec_C6_fatal_startup_witness :
    newMetricsCollector meterRejectingGcCycles =
      Except.error "go_gc_cycles_total" ∧
    (createInstruments meterRejectingGcCycles instrumentOrder).1 =
      instrumentOrder.takeWhile meterRejectingGcCycles.createOk ∧
    mainOutcome meterRejectingGcCycles =
      ProcessOutcome.terminated "go_gc_cycles_total" :=
  spec_C6_fatal_startup meterRejectingGcCycles "go_gc_cycles_total" (by decide)

/-- C7, failing input: three sequential `/simulate-mutex` calls, each
measuring 100000000 ns (0.1 s) of sleep, leave `go_mutex_lock_total`
at 3 but `go_mutex_wait_seconds_total` at 300000000, because the code
adds nanoseconds to the seconds-named counter; the value is nowhere
near 0.3. -/
theorem spec_C7_mutex_units_failing :
    (runOps initialSystemState
        [Op.simulateMutex 100000000, Op.simulateMutex 100000000,
         Op.simulateMutex 100000000]).counters.mutexLockCount = 3 ∧
    (runOps initialSystemState
        [Op.simulateMutex 100000000, Op.simulateMutex 100000000,
         Op.simulateMutex 100000000]).counters.mutexWaitTime = 300000000 ∧
    ¬ (runOps initialSystemState
        [Op.simulateMutex 100000000, Op.simulateMutex 100000000,
         Op.simulateMutex 100000000]).counters.mutexWaitTime ≤ 1 := by
  refine ⟨rfl, rfl, by decide⟩

/-- C8, counterexample to the universal range part of the claim: a
snapshot whose `uint64` heap-alloc field is `2 ^ 63` is published as
the negative `int64` value `-(2 ^ 63)`. -/
theorem spec_C8_counterexample :
    (metricsCallback initialCumulativeState snapshotHugeHeap).obs.heapAlloc =
      -(2 ^ 63) ∧
    (metricsCallback initialCumulativeState snapshotHugeHeap).obs.heapAlloc
      < 0 := by
  constructor <;> decide

/-- C8 amended: for every snapshot whose heap-alloc field is below
`2 ^ 63`, the published `go_memstats_heap_alloc_bytes` gauge value is
non-negative. -/
theorem spec_C8_heap_alloc_nonneg (mc : CumulativeState) (s : Snapshot)
    (h : s.stats.HeapAlloc < 2 ^ 63) :
    0 ≤ (metricsCallback mc s).obs.heapAlloc := by
  rw [metricsCallback_obs]
  simp only [observeGauges]
  exact int64OfUInt64_nonneg _ h

/-- Witness for the amended C8 at a concrete snapshot with heap-alloc
0. -/
theorem spec_C8_heap_alloc_nonneg_witness :
    (sampleSnapshot 0 0).stats.HeapAlloc < 2 ^ 63 ∧
    0 ≤ (metricsCallback initialCumulativeState
          (sampleSnapshot 0 0)).obs.heapAlloc :=
  ⟨by decide,
    spec_C8_heap_alloc_nonneg initialCumulativeState (sampleSnapshot 0 0)
      (by decide)⟩

/-- No operation of the running process changes the four counters
that are never added to. -/
theorem runOps_unused_counters (ops : List Op) (st : SystemState) :
    (runOps st ops).counters.gcForced = st.counters.gcForced ∧
    (runOps st ops).counters.goroutineExecTime =
      st.counters.goroutineExecTime ∧
    (runOps st ops).counters.gcTime = st.counters.gcTime ∧
    (runOps st ops).counters.systemTime = st.counters.systemTime := by
  induction ops generalizing st with
  | nil => exact ⟨rfl, rfl, rfl, rfl⟩
  | cons op rest ih =>
      have hstep : (step st op).counters.gcForced = st.counters.gcForced ∧
          (step st op).counters.goroutineExecTime =
            st.counters.goroutineExecTime ∧
          (step st op).counters.gcTime = st.counters.gcTime ∧
          (step st op).counters.systemTime = st.counters.systemTime := by
        cases op <;>
          simp [step, allocateMemoryHandler, spawnGoroutinesHandler,
            simulateMutexHandler]
      have hr := ih (step st op)
      simp only [runOps, List.foldl_cons] at hr ⊢
      exact ⟨hr.1.trans hstep.1, hr.2.1.trans hstep.2.1,
        hr.2.2.1.trans hstep.2.2.1, hr.2.2.2.trans hstep.2.2.2⟩

/-- C10: the four counters `go_gc_forced_total`,
`go_runtime_cpu_goroutine_seconds_total`, `go_gc_cpu_seconds_total`
and `go_runtime_sys_seconds_total` are registered, yet after every
sequence of operations from startup each still totals 0. -/
theorem spec_C10_dead_counters :
    ("go_gc_forced_total", Kind.counter) ∈ registeredInstruments ∧
    ("go_runtime_cpu_goroutine_seconds_total", Kind.counter) ∈
      registeredInstruments ∧
    ("go_gc_cpu_seconds_total", Kind.counter) ∈ registeredInstruments ∧
    ("go_runtime_sys_seconds_total", Kind.counter) ∈ registeredInstruments ∧
    ∀ ops : List Op,
      (runOps initialSystemState ops).counters.gcForced = 0 ∧
      (runOps initialSystemState ops).counters.goroutineExecTime = 0 ∧
      (runOps initialSystemState ops).counters.gcTime = 0 ∧
      (runOps initialSystemState ops).counters.systemTime = 0 := by
  refine ⟨by decide, by decide, by decide, by decide, fun ops => ?_⟩
  have h := runOps_unused_counters ops initialSystemState
  simpa [initialSystemState, initialCounters] using h
